import Mathlib

/-!
Verification development for the `rpa_core_lib` Python library.

The library has three independent facades:
* `logger.py` — `RPALogger` (a wrapper around the stdlib `logging` module)
  and `LoggerFactory` (a process-wide cache of `RPALogger` instances);
* `browser.py` — `BrowserManager`, a lazy one-handle Chrome driver manager;
* `data.py` — `DataHandler`, pandas-based read/write/transform helpers.

Each Python construct is shallowly embedded below: the mutable state of the
stdlib logging registry, the factory cache, the browser manager, and the file
system are made explicit, and the external libraries (pandas serialisation,
`strftime`, `str.endswith`, …) are modelled by executable Lean functions that
agree with those libraries on the input domains used by the theorems.
-/

namespace RpaCore

/-! ## Common models: paths, clock, digit formatting -/

/-- Model of POSIX `os.path.join` for two components: an absolute second
component wins; otherwise the parts are glued with exactly one slash. -/
def pathJoin (a b : String) : String :=
  if b.data.take 1 = ['/'] then b
  else if a = "" then b
  else if a.data.getLast? = some '/' then a ++ b
  else a ++ "/" ++ b

/-- Model of Python `str.lower` (exact on ASCII names). -/
def pyLower (s : String) : String := String.mk (s.data.map Char.toLower)

/-- A wall-clock instant, as read by `datetime.now()`. -/
structure DateTime where
  year : Nat
  month : Nat
  day : Nat
  hour : Nat
  minute : Nat
  second : Nat
deriving Repr, DecidableEq

/-- A well-formed clock reading (Gregorian field ranges; four-digit year,
which is the only case `strftime` zero-pads `%Y` to four characters). -/
def DateTime.Valid (t : DateTime) : Prop :=
  1000 ≤ t.year ∧ t.year ≤ 9999 ∧
  1 ≤ t.month ∧ t.month ≤ 12 ∧
  1 ≤ t.day ∧ t.day ≤ 31 ∧
  t.hour < 24 ∧ t.minute < 60 ∧ t.second < 60

instance (t : DateTime) : Decidable t.Valid := by
  unfold DateTime.Valid; infer_instance

/-- Fixed-width zero-padded decimal digits of `n` (model of the zero-padded
`strftime` conversions `%Y`, `%m`, `%d`, `%H`, `%M`, `%S`). -/
def digitsFixed (w n : Nat) : List Char :=
  (List.range w).reverse.map (fun i => Nat.digitChar (n / 10 ^ i % 10))

/-- Model of `datetime.now().strftime(\x7b`%Y%m%d`\x7d)` (from `logger.py`
line 102). -/
def fmtYmd (t : DateTime) : String :=
  String.mk (digitsFixed 4 t.year ++ digitsFixed 2 t.month ++ digitsFixed 2 t.day)

/-- Model of `datetime.now().strftime('%Y%m%d_%H%M%S')` (from `data.py`
line 485). -/
def fmtYmdHMS (t : DateTime) : String :=
  String.mk (digitsFixed 4 t.year ++ digitsFixed 2 t.month ++ digitsFixed 2 t.day ++
    '_' :: (digitsFixed 2 t.hour ++ digitsFixed 2 t.minute ++ digitsFixed 2 t.second))

/-- Model of Python `str.endswith`: compare the trailing slice. -/
def pyEndsWith (s suffix : String) : Bool :=
  if suffix.data.length ≤ s.data.length then
    s.data.drop (s.data.length - suffix.data.length) == suffix.data
  else false

/-! ## Logger module (`logger.py`)

The stdlib `logging` registry is a process-wide dict from names to logger
objects; a logger object carries a level and a list of handlers.  An
`RPALogger.__init__` call mutates that registry.  Python object identity of
the `RPALogger` wrappers is modelled by a fresh `id` drawn from a counter. -/

/-- `RPALogger.SIMPLE_FORMAT`. -/
def SIMPLE_FORMAT : String :=
  "%(asctime)s - %(name)s - %(levelname)s - %(message)s"

/-- `RPALogger.DETAILED_FORMAT`. -/
def DETAILED_FORMAT : String :=
  "%(asctime)s - %(name)s - %(levelname)s - [%(filename)s:%(lineno)d] - %(funcName)s() - %(message)s"

/-- A logging sink: a console `StreamHandler` or a size-rotating
`RotatingFileHandler` with its file path, `maxBytes` and `backupCount`. -/
inductive HandlerKind where
  | console : HandlerKind
  | file : String → Nat → Nat → HandlerKind
deriving Repr, DecidableEq

/-- An attached handler: its kind, minimum level and formatter string. -/
structure LogHandler where
  kind : HandlerKind
  level : Nat
  fmt : String
deriving Repr, DecidableEq

/-- A `logging.Logger` object: effective level plus attached handlers. -/
structure PyLogger where
  level : Nat
  handlers : List LogHandler
deriving Repr, DecidableEq

/-- The process-wide `logging` registry (`logging.getLogger` dict). -/
abbrev Registry := List (String × PyLogger)

/-- `logging.getLogger(name)`: return the registered logger, or a fresh one
(no handlers) when the name is not registered yet. -/
def getLoggerEntry (reg : Registry) (name : String) : PyLogger :=
  match reg.find? (fun p => p.fst == name) with
  | some p => p.snd
  | none => { level := 30, handlers := [] }

/-- Write back a logger object under `name` (dict update semantics: replace
the existing binding, or append a new one). -/
def setLoggerEntry (reg : Registry) (name : String) (lg : PyLogger) : Registry :=
  if reg.any (fun p => p.fst == name) then
    reg.map (fun p => if p.fst == name then (p.fst, lg) else p)
  else reg ++ [(name, lg)]

/-- Keyword options accepted by `RPALogger.__init__` (beyond `name`), with
the Python defaults.  `log_dir` and `level` are resolved through Python
`or`, so falsy explicit values also fall back to the defaults. -/
structure RPAOpts where
  log_dir : Option String := none
  level : Option Nat := none
  format_type : String := "detailed"
  enable_file : Bool := true
  enable_console : Bool := true
  max_bytes : Nat := 10485760
  backup_count : Nat := 5
deriving Repr, DecidableEq

/-- `log_dir or self.DEFAULT_LOG_DIR` (Python truthiness: `None` and `""`
both fall back). -/
def resolveLogDir (o : Option String) : String :=
  match o with
  | none => "logs"
  | some s => if s = "" then "logs" else s

/-- `level or self.DEFAULT_LEVEL` (Python truthiness: `None` and `0` both
fall back; `logging.INFO = 20`). -/
def resolveLevel (o : Option Nat) : Nat :=
  match o with
  | none => 20
  | some l => if l = 0 then 20 else l

/-- `RPALogger._get_formatter`: pick the format string by `format_type`. -/
def getFormatter (format_type : String) : String :=
  if format_type = "simple" then SIMPLE_FORMAT else DETAILED_FORMAT

/-- The log-file path built by `RPALogger._add_file_handler`:
`os.path.join(log_dir, f'\x7bself.name.lower()\x7d_\x7btimestamp\x7d.log')`
with `timestamp = datetime.now().strftime('%Y%m%d')`. -/
def logFilePath (log_dir name : String) (now : DateTime) : String :=
  pathJoin log_dir (pyLower name ++ "_" ++ fmtYmd now ++ ".log")

/-- The `RPALogger` wrapper object: its Python identity (`id`) and the
attributes stored by `__init__`. -/
structure RPALogger where
  id : Nat
  name : String
  log_dir : String
  level : Nat
  format_type : String
  enable_file : Bool
  enable_console : Bool
  max_bytes : Nat
  backup_count : Nat
deriving Repr, DecidableEq

/-- `RPALogger.__init__(name, **opts)` as a transition on the logging
registry: fetch-or-create the named logger, set its level, clear its
handlers when it already has some, then attach the configured console
and/or rotating-file handlers (in that order).  The sequence of in-place
mutations of the one registry slot is collapsed into a single write-back. -/
def RPALogger.init (name : String) (opts : RPAOpts) (reg : Registry)
    (id : Nat) (now : DateTime) : RPALogger × Registry :=
  let log_dir := resolveLogDir opts.log_dir
  let level := resolveLevel opts.level
  let self : RPALogger :=
    { id := id, name := name, log_dir := log_dir, level := level,
      format_type := opts.format_type, enable_file := opts.enable_file,
      enable_console := opts.enable_console, max_bytes := opts.max_bytes,
      backup_count := opts.backup_count }
  let lg := getLoggerEntry reg name
  let lg := { lg with level := level }
  let lg := if lg.handlers.isEmpty then lg else { lg with handlers := [] }
  let fmt := getFormatter opts.format_type
  let lg := if opts.enable_console then
      { lg with handlers := lg.handlers ++ [⟨HandlerKind.console, level, fmt⟩] }
    else lg
  let lg := if opts.enable_file then
      { lg with handlers := lg.handlers ++
          [⟨HandlerKind.file (logFilePath log_dir name now) opts.max_bytes opts.backup_count,
            level, fmt⟩] }
    else lg
  (self, setLoggerEntry reg name lg)

/-- The whole mutable state touched by `LoggerFactory.get_logger`: the
factory's `_loggers` cache, the stdlib logging registry, and the identity
counter for freshly constructed wrapper objects. -/
structure FactoryState where
  cache : List (String × RPALogger)
  registry : Registry
  nextId : Nat
deriving Repr, DecidableEq

/-- The cache key of `LoggerFactory.get_logger`:
`logger_key = f"\x7bname\x7d_\x7bcontext\x7d" if context else name`
(Python truthiness: an empty-string context also selects the bare name). -/
def loggerKey (name : String) (context : Option String) : String :=
  match context with
  | some c => if c = "" then name else name ++ "_" ++ c
  | none => name

/-- `LoggerFactory.get_logger(name, context, **kwargs)`: return the cached
wrapper when the key is present (ignoring `kwargs`); otherwise construct an
`RPALogger` — note the construction receives `name` only, never `context` —
cache it under the key, and return it. -/
def LoggerFactory.get_logger (name : String) (context : Option String)
    (opts : RPAOpts) (now : DateTime) (s : FactoryState) :
    RPALogger × FactoryState :=
  let key := loggerKey name context
  match s.cache.find? (fun p => p.fst == key) with
  | some p => (p.snd, s)
  | none =>
    let r := RPALogger.init name opts s.registry s.nextId now
    (r.fst, { cache := (key, r.fst) :: s.cache, registry := r.snd,
              nextId := s.nextId + 1 })

/-! ## Browser module (`browser.py`)

`BrowserManager` lazily launches one Chrome driver.  The external world is
the set of OS browser processes, modelled by a spawn counter: a successful
launch hands out the next counter value as the session handle.  Whether the
external launch or `quit()` call raises is an environment choice, passed in
as a boolean. -/

/-- `BrowserManager` instance attributes (`__init__`, `browser.py` 51-57). -/
structure BrowserManager where
  headless : Bool
  window_size : Nat × Nat
  wait_time : Nat
  additional_args : List String
  user_agent : Option String
  driver : Option Nat
  wait : Option (Nat × Nat)
deriving Repr, DecidableEq

/-- `BrowserManager.__init__`: store the configuration; `driver` and `wait`
start absent (the driver is not launched here). -/
def BrowserManager.init (headless : Bool) (window_size : Option (Nat × Nat))
    (additional_args : Option (List String)) (wait_time : Nat)
    (user_agent : Option String) : BrowserManager :=
  { headless := headless, window_size := window_size.getD (1920, 1080),
    wait_time := wait_time, additional_args := additional_args.getD [],
    user_agent := user_agent, driver := none, wait := none }

/-- The external OS: how many browser processes have been spawned. -/
structure BrowserWorld where
  spawnCount : Nat
deriving Repr, DecidableEq

/-- `BrowserManager.get_driver`: when a driver is held, return it without
touching the world; otherwise launch one (which may raise — the exception
is re-raised after logging) and remember it together with its
`WebDriverWait`. -/
def BrowserManager.get_driver (m : BrowserManager) (w : BrowserWorld)
    (launchFails : Bool) : Except String (Nat × BrowserManager × BrowserWorld) :=
  match m.driver with
  | some d => Except.ok (d, m, w)
  | none =>
    if launchFails then Except.error "WebDriverException"
    else
      let d := w.spawnCount
      Except.ok (d,
        { m with driver := some d, wait := some (d, m.wait_time) },
        { spawnCount := w.spawnCount + 1 })

/-- `BrowserManager.close_driver`: no-op without a driver; with one, call
`quit()` inside `try`/`except` — only when it returns normally are
`driver` and `wait` set to `None`; when it raises, the exception is caught
(logged) and the fields keep their old values.  The function is total:
nothing propagates to the caller. -/
def BrowserManager.close_driver (m : BrowserManager) (quitFails : Bool) :
    BrowserManager :=
  match m.driver with
  | none => m
  | some _ =>
    if quitFails then m
    else { m with driver := none, wait := none }

/-! ## Data module (`data.py`)

A pandas `DataFrame` is modelled column-major: a list of named, typed
columns whose cell values are strings.  The file system records written
files and existing directories.  The pandas CSV codec (default options as
used by `save_csv`/`read_csv`: `index=False`, comma separator, `\n` row
terminator, header row, blank lines skipped on read) is modelled by
executable functions over `List Char`; the model is exact for cells that
need no quoting, and the round-trip theorems restrict to that domain. -/

/-- One dataframe column. -/
structure Column where
  name : String
  dtype : String
  values : List String
deriving Repr, DecidableEq

/-- A dataframe: its columns, in order. -/
abbrev DataFrame := List Column

/-- `df.columns` membership / `df[c]`: the first column named `c`. -/
def getCol (df : DataFrame) (c : String) : Option Column :=
  df.find? (fun col => col.name == c)

/-- The row count of a dataframe (all columns have the same length for
well-formed frames; the first column is representative). -/
def nrows (df : DataFrame) : Nat :=
  match df with
  | [] => 0
  | col :: _ => col.values.length

/-- Row `i` of the frame, as the list of its cells. -/
def rowCells (df : DataFrame) (i : Nat) : List String :=
  df.map (fun col => col.values.getD i "")

/-- All rows of the frame, in order. -/
def dfRows (df : DataFrame) : List (List String) :=
  (List.range (nrows df)).map (rowCells df)

/-- Split a character list at every occurrence of `sep` (model of the
line/field splitting done by the CSV reader). -/
def splitOnChar (sep : Char) : List Char → List (List Char)
  | [] => [[]]
  | c :: cs =>
    if c = sep then [] :: splitOnChar sep cs
    else
      match splitOnChar sep cs with
      | [] => [[c]]
      | h :: t => (c :: h) :: t

/-- Join pieces with a separator character (model of the CSV writer's
field joining). -/
def joinSep (sep : Char) : List (List Char) → List Char
  | [] => []
  | [x] => x
  | x :: y :: t => x ++ sep :: joinSep sep (y :: t)

/-- One CSV line from its cells. -/
def csvLine (cells : List (List Char)) : List Char := joinSep ',' cells

/-- Terminate every line with `\n` (pandas `to_csv` ends each record,
including the last, with the line terminator). -/
def terminateLines (lines : List (List Char)) : List Char :=
  lines.foldr (fun l acc => l ++ '\n' :: acc) []

/-- Model of `df.to_csv(path, index=False)`'s file content: a header line
with the column names followed by one line per row. -/
def to_csv (df : DataFrame) : String :=
  String.mk (terminateLines
    (csvLine (df.map (fun c => c.name.data)) ::
      (dfRows df).map (fun r => csvLine (r.map String.data))))

/-- Build the read-back columns: column `i` is named by the `i`-th header
field and holds the `i`-th field of every data row (read-back dtype is the
inferred `object`). -/
def buildCols (rows : List (List (List Char))) : Nat → List (List Char) → DataFrame
  | _, [] => []
  | i, n :: ns =>
    { name := String.mk n, dtype := "object",
      values := rows.map (fun r => String.mk (r.getD i [])) } ::
      buildCols rows (i + 1) ns

/-- Model of `pd.read_csv` on a file's content: split into lines, skip
blank lines (the default `skip_blank_lines=True`, which also disposes of
the trailing terminator), take the first line as the header and the rest
as data rows; an empty file raises `EmptyDataError` (`none`). -/
def parseCsvDf (content : String) : Option DataFrame :=
  match (splitOnChar '\n' content.data).filter (fun l => !l.isEmpty) with
  | [] => none
  | header :: rows =>
    some (buildCols (rows.map (splitOnChar ',')) 0 (splitOnChar ',' header))

/-- The file system: written files (newest binding first) and existing
directories. -/
structure FileSystem where
  files : List (String × String)
  dirs : List String
deriving Repr, DecidableEq

/-- Write (create or overwrite) a file. -/
def FileSystem.write (fs : FileSystem) (path content : String) : FileSystem :=
  { fs with files := (path, content) :: fs.files }

/-- Read a file's content, `none` when absent (`FileNotFoundError`). -/
def FileSystem.readFile (fs : FileSystem) (path : String) : Option String :=
  match fs.files.find? (fun p => p.fst == path) with
  | some p => some p.snd
  | none => none

/-- `Path(dir).mkdir(parents=True, exist_ok=True)`. -/
def FileSystem.mkdirp (fs : FileSystem) (dir : String) : FileSystem :=
  if fs.dirs.contains dir then fs else { fs with dirs := dir :: fs.dirs }

/-- `DataHandler.SUPPORTED_FORMATS` (`data.py` line 13). -/
def SUPPORTED_FORMATS : List String :=
  ["csv", "xlsx", "json", "parquet", "html", "sql"]

/-- The formats `fmt` for which the class defines a `save_<fmt>` method
(`data.py` defines `save_csv`, `save_excel`, `save_json`, `save_parquet`,
`save_html`). -/
def SAVE_METHOD_FORMATS : List String :=
  ["csv", "excel", "json", "parquet", "html"]

/-- The formats `fmt` for which the class defines a matching `read_<fmt>`
method (`read_csv`, `read_excel`, `read_json`, `read_parquet`,
`read_html`). -/
def READ_METHOD_FORMATS : List String :=
  ["csv", "excel", "json", "parquet", "html"]

/-- `DataHandler` instance attributes. -/
structure DataHandler where
  output_dir : String
  encoding : String
deriving Repr, DecidableEq

/-- `DataHandler.__init__`: resolve the defaults through Python `or` and
create the output directory (this constructor is the only place the
directory is created). -/
def DataHandler.init (output_dir : Option String) (encoding : Option String)
    (fs : FileSystem) : DataHandler × FileSystem :=
  let od := match output_dir with
    | none => "dados_exportados"
    | some s => if s = "" then "dados_exportados" else s
  let enc := match encoding with
    | none => "utf-8"
    | some s => if s = "" then "utf-8" else s
  ({ output_dir := od, encoding := enc }, fs.mkdirp od)

/-- `DataHandler._add_extension`: append `.extension` unless the filename
already ends with it (`str.endswith`). -/
def _add_extension (filename extension : String) : String :=
  if pyEndsWith filename ("." ++ extension) then filename
  else filename ++ "." ++ extension

/-- `DataHandler.save_csv`: add the `csv` extension when missing, join with
the output directory, write the serialised frame there, and return the
path.  The body performs no directory creation. -/
def DataHandler.save_csv (h : DataHandler) (fs : FileSystem) (df : DataFrame)
    (filename : String) : String × FileSystem :=
  let fn := _add_extension filename "csv"
  let file_path := pathJoin h.output_dir fn
  (file_path, fs.write file_path (to_csv df))

/-- `DataHandler.read_csv`: read the file and parse it as CSV; reading a
missing file or an empty file fails. -/
def DataHandler.read_csv (h : DataHandler) (fs : FileSystem)
    (file_path : String) : Option DataFrame :=
  (fs.readFile file_path).bind parseCsvDf

/-- The content renderers of the non-CSV pandas writers (`to_excel`,
`to_json`, `to_parquet`, `to_html`): external library serialisers whose
output none of the claims inspect, kept abstract. -/
structure Renderers where
  excel : DataFrame → String
  json : DataFrame → String
  parquet : DataFrame → String
  html : DataFrame → String

/-- Shared shape of the remaining `save_*` methods: add the canonical
extension when missing, join with the output directory, write, return the
path (none of them create directories either). -/
def DataHandler.savePath (h : DataHandler) (fs : FileSystem)
    (filename ext content : String) : String × FileSystem :=
  let fn := _add_extension filename ext
  let file_path := pathJoin h.output_dir fn
  (file_path, fs.write file_path content)

/-- `DataHandler.save_excel` (canonical extension `xlsx`). -/
def DataHandler.save_excel (h : DataHandler) (r : Renderers) (fs : FileSystem)
    (df : DataFrame) (filename : String) : String × FileSystem :=
  h.savePath fs filename "xlsx" (r.excel df)

/-- `DataHandler.save_json`. -/
def DataHandler.save_json (h : DataHandler) (r : Renderers) (fs : FileSystem)
    (df : DataFrame) (filename : String) : String × FileSystem :=
  h.savePath fs filename "json" (r.json df)

/-- `DataHandler.save_parquet`. -/
def DataHandler.save_parquet (h : DataHandler) (r : Renderers) (fs : FileSystem)
    (df : DataFrame) (filename : String) : String × FileSystem :=
  h.savePath fs filename "parquet" (r.parquet df)

/-- `DataHandler.save_html`. -/
def DataHandler.save_html (h : DataHandler) (r : Renderers) (fs : FileSystem)
    (df : DataFrame) (filename : String) : String × FileSystem :=
  h.savePath fs filename "html" (r.html df)

/-- The dynamic dispatch `getattr(self, f'save_\x7bformat\x7d')` followed by
the call: formats naming an existing `save_<format>` method dispatch to it;
any other format string (including `xlsx`, whose method is `save_excel`)
raises `AttributeError` (`none`). -/
def saveDispatch (h : DataHandler) (r : Renderers) (fs : FileSystem)
    (df : DataFrame) (filename format : String) :
    Option (String × FileSystem) :=
  if format = "csv" then some (h.save_csv fs df filename)
  else if format = "excel" then some (h.save_excel r fs df filename)
  else if format = "json" then some (h.save_json r fs df filename)
  else if format = "parquet" then some (h.save_parquet r fs df filename)
  else if format = "html" then some (h.save_html r fs df filename)
  else none

/-- `DataHandler.save_with_timestamp`: append `_YYYYMMDD_HHMMSS` to the
base name, then dispatch to `save_<format>`. -/
def DataHandler.save_with_timestamp (h : DataHandler) (r : Renderers)
    (fs : FileSystem) (df : DataFrame) (filename format : String)
    (now : DateTime) : Option (String × FileSystem) :=
  let timestamp := fmtYmdHMS now
  let filename_with_ts := filename ++ "_" ++ timestamp
  saveDispatch h r fs df filename_with_ts format

/-- `Series.astype` applied through `DataHandler.convert_dtype`'s
`try`/`except`: on success the column takes the requested dtype and the
cast values; on failure (`none`, i.e. `astype` raised) the error is printed
and the column is left untouched. -/
def applyCast (astype : String → List String → Option (List String))
    (col : Column) (dtype : String) : Column :=
  match astype dtype col.values with
  | some vs => { col with dtype := dtype, values := vs }
  | none => col

/-- One iteration of `convert_dtype`'s loop: `if column in df.columns`,
cast that column in place (under `try`/`except`), else skip. -/
def castStep (astype : String → List String → Option (List String))
    (df : DataFrame) (column dtype : String) : DataFrame :=
  if df.any (fun col => col.name == column) then
    df.map (fun col => if col.name == column then applyCast astype col dtype else col)
  else df

/-- `DataHandler.convert_dtype`: copy the frame and process every entry of
the dtype mapping in order; a failing cast never aborts the loop and the
function always returns a frame (no exception escapes). -/
def convert_dtype (astype : String → List String → Option (List String))
    (df : DataFrame) (dtype_mapping : List (String × String)) : DataFrame :=
  dtype_mapping.foldl (fun acc p => castStep astype acc p.fst p.snd) df

/-! ## Helper lemmas: registry lookup and update -/

theorem find?_update (t : Registry) (name : String) (lg : PyLogger)
    (h : t.any (fun p => p.fst == name) = true) :
    (t.map (fun p => if p.fst == name then (p.fst, lg) else p)).find?
      (fun p => p.fst == name) = some (name, lg) := by
  induction t with
  | nil => simp at h
  | cons a t ih =>
    simp only [List.map_cons]
    by_cases ha : (a.fst == name) = true
    · rw [if_pos ha, List.find?_cons_of_pos _ (by simpa using ha)]
      have : a.fst = name := by simpa using ha
      rw [this]
    · rw [if_neg ha, List.find?_cons_of_neg _ (by simpa using ha)]
      apply ih
      simp only [List.any_cons, ha, Bool.false_or] at h
      exact h

theorem find?_append_new (t : Registry) (name : String) (lg : PyLogger)
    (h : t.any (fun p => p.fst == name) = false) :
    (t ++ [(name, lg)]).find? (fun p => p.fst == name) = some (name, lg) := by
  induction t with
  | nil => simp
  | cons a t ih =>
    simp only [List.any_cons, Bool.or_eq_false_iff] at h
    simp only [List.cons_append]
    rw [List.find?_cons_of_neg _ (by simp [h.1])]
    exact ih h.2

theorem getLoggerEntry_set (reg : Registry) (name : String) (lg : PyLogger) :
    getLoggerEntry (setLoggerEntry reg name lg) name = lg := by
  unfold getLoggerEntry setLoggerEntry
  by_cases h : reg.any (fun p => p.fst == name) = true
  · rw [if_pos h, find?_update reg name lg h]
  · rw [if_neg h, find?_append_new reg name lg (by simpa only [Bool.not_eq_true] using h)]

/-- The handler list attached by one `RPALogger.__init__` run: whatever was
there before, afterwards the named logger carries exactly the configured
console and/or file sinks (the constructor clears any pre-existing ones). -/
theorem init_handlers (name : String) (opts : RPAOpts) (reg : Registry)
    (id : Nat) (now : DateTime) :
    (getLoggerEntry (RPALogger.init name opts reg id now).snd name).handlers =
      (if opts.enable_console then
        [⟨HandlerKind.console, resolveLevel opts.level, getFormatter opts.format_type⟩]
       else []) ++
      (if opts.enable_file then
        [⟨HandlerKind.file (logFilePath (resolveLogDir opts.log_dir) name now)
            opts.max_bytes opts.backup_count,
          resolveLevel opts.level, getFormatter opts.format_type⟩]
       else []) := by
  unfold RPALogger.init
  simp only [getLoggerEntry_set]
  by_cases hempty : (getLoggerEntry reg name).handlers.isEmpty = true
  · have : (getLoggerEntry reg name).handlers = [] := by
      simpa [List.isEmpty_iff] using hempty
    cases hc : opts.enable_console <;> cases hf : opts.enable_file <;>
      simp [hempty, this, hc, hf]
  · cases hc : opts.enable_console <;> cases hf : opts.enable_file <;>
      simp [hempty, hc, hf]

/-- The name of the constructed wrapper is the requested one. -/
theorem init_name (name : String) (opts : RPAOpts) (reg : Registry)
    (id : Nat) (now : DateTime) :
    (RPALogger.init name opts reg id now).fst.name = name := rfl

/-- The identity of the constructed wrapper is the supplied fresh id. -/
theorem init_id (name : String) (opts : RPAOpts) (reg : Registry)
    (id : Nat) (now : DateTime) :
    (RPALogger.init name opts reg id now).fst.id = id := rfl

/-! ## Digit-format lemmas (for the timestamped names) -/

theorem digitsFixed_length (w n : Nat) : (digitsFixed w n).length = w := by
  simp [digitsFixed]

theorem digitChar_isDigit (n : Nat) (h : n < 10) :
    (Nat.digitChar n).isDigit = true := by
  interval_cases n <;> decide

theorem digitsFixed_all (w n : Nat) :
    (digitsFixed w n).all Char.isDigit = true := by
  simp only [digitsFixed, List.all_eq_true, List.mem_map, List.mem_reverse,
    List.mem_range]
  rintro c ⟨i, -, rfl⟩
  exact digitChar_isDigit _ (Nat.mod_lt _ (by norm_num))

/-! ## Claims C1, C7, C8, C9 — the logger registry -/

/-- C1 (amended): repeated `LoggerFactory.get_logger` calls with the same
`name` and `context` return the identical cached `RPALogger` on the second
call and leave the whole state untouched, whatever the second call's
options (first-writer-wins); the cache key is `name` alone when the context
is absent **or empty**, and `name ++ "_" ++ context` for a nonempty
context. -/
theorem C1_factory_cache_first_writer_wins :
    (∀ (name : String) (context : Option String) (o1 o2 : RPAOpts)
        (now1 now2 : DateTime) (s : FactoryState),
      (LoggerFactory.get_logger name context o2 now2
          (LoggerFactory.get_logger name context o1 now1 s).snd).fst =
        (LoggerFactory.get_logger name context o1 now1 s).fst ∧
      (LoggerFactory.get_logger name context o2 now2
          (LoggerFactory.get_logger name context o1 now1 s).snd).snd =
        (LoggerFactory.get_logger name context o1 now1 s).snd) ∧
    (∀ name : String, loggerKey name none = name) ∧
    (∀ name c : String, c ≠ "" → loggerKey name (some c) = name ++ "_" ++ c) ∧
    (∀ name : String, loggerKey name (some "") = name) := by
  refine ⟨?_, fun name => rfl, fun name c hc => by simp [loggerKey, hc],
    fun name => by simp [loggerKey]⟩
  intro name context o1 o2 now1 now2 s
  unfold LoggerFactory.get_logger
  cases h : s.cache.find? (fun p => p.fst == loggerKey name context) with
  | some p => simp [h]
  | none =>
    simp only [h]
    rw [List.find?_cons_of_pos _ (by simp)]
    exact ⟨rfl, rfl⟩

/-- C1 counterexample to the claim as stated: with the empty-string context
`""` (present, not absent), the cache key is `name` itself, not
`name ++ "_" ++ context` as the claim's key formula requires. -/
theorem C1_key_empty_context_counterexample :
    loggerKey "RPA" (some "") = "RPA" ∧ "RPA" ≠ "RPA" ++ "_" ++ "" := by
  constructor
  · rfl
  · decide

/-- C1 witness: instantiating the cache-hit part at a concrete state and the
key formula at the nonempty context `"browser"`. -/
theorem C1_witness :
    (LoggerFactory.get_logger "Bot" (some "browser") {} ⟨2026, 1, 2, 3, 4, 6⟩
        (LoggerFactory.get_logger "Bot" (some "browser") {} ⟨2026, 1, 2, 3, 4, 5⟩
          ⟨[], [], 0⟩).snd).fst =
      (LoggerFactory.get_logger "Bot" (some "browser") {} ⟨2026, 1, 2, 3, 4, 5⟩
        ⟨[], [], 0⟩).fst ∧
    loggerKey "Bot" (some "browser") = "Bot" ++ "_" ++ "browser" :=
  ⟨(C1_factory_cache_first_writer_wins.1 "Bot" (some "browser") {} {}
      ⟨2026, 1, 2, 3, 4, 5⟩ ⟨2026, 1, 2, 3, 4, 6⟩ ⟨[], [], 0⟩).1,
    C1_factory_cache_first_writer_wins.2.2.1 "Bot" "browser" (by decide)⟩

/-- C7: constructing an `RPALogger` for a name whose underlying stdlib
logger already has attached sinks first clears them: after construction the
sink list of the named logger is exactly the newly configured console
and/or file sinks. -/
theorem C7_reconfigure_clears_sinks (name : String) (opts : RPAOpts)
    (reg : Registry) (id : Nat) (now : DateTime)
    (hprior : (getLoggerEntry reg name).handlers ≠ []) :
    (getLoggerEntry (RPALogger.init name opts reg id now).snd name).handlers =
      (if opts.enable_console then
        [⟨HandlerKind.console, resolveLevel opts.level, getFormatter opts.format_type⟩]
       else []) ++
      (if opts.enable_file then
        [⟨HandlerKind.file (logFilePath (resolveLogDir opts.log_dir) name now)
            opts.max_bytes opts.backup_count,
          resolveLevel opts.level, getFormatter opts.format_type⟩]
       else []) :=
  init_handlers name opts reg id now

/-- C7 witness: a registry whose `"Bot"` logger already carries a console
sink; reconstruction leaves exactly the fresh console and file sinks. -/
theorem C7_witness :
    (getLoggerEntry (RPALogger.init "Bot" {} [("Bot",
        { level := 20, handlers := [⟨HandlerKind.console, 10, "old"⟩] })] 0
        ⟨2026, 1, 2, 3, 4, 5⟩).snd "Bot").handlers =
      [⟨HandlerKind.console, 20, DETAILED_FORMAT⟩,
       ⟨HandlerKind.file "logs/bot_20260102.log" 10485760 5, 20, DETAILED_FORMAT⟩] := by
  have h := C7_reconfigure_clears_sinks "Bot" {}
    [("Bot", { level := 20, handlers := [⟨HandlerKind.console, 10, "old"⟩] })] 0
    ⟨2026, 1, 2, 3, 4, 5⟩ (by decide)
  rw [h]
  decide

/-- C8: with file output enabled, the attached rotating-file sink (always
the last handler added) logs to
`<log_dir>/<name lowercased>_<YYYYMMDD>.log`, and the date part is exactly
eight decimal digits. -/
theorem C8_log_file_name (name : String) (opts : RPAOpts) (reg : Registry)
    (id : Nat) (now : DateTime) (hfile : opts.enable_file = true)
    (hv : now.Valid) :
    (getLoggerEntry (RPALogger.init name opts reg id now).snd name).handlers.getLast? =
      some ⟨HandlerKind.file
          (pathJoin (resolveLogDir opts.log_dir)
            (pyLower name ++ "_" ++ fmtYmd now ++ ".log"))
          opts.max_bytes opts.backup_count,
        resolveLevel opts.level, getFormatter opts.format_type⟩ ∧
    (fmtYmd now).data.length = 8 ∧ (fmtYmd now).data.all Char.isDigit = true := by
  refine ⟨?_, ?_, ?_⟩
  · rw [init_handlers, hfile, if_pos rfl]
    rw [List.getLast?_concat]
    rfl
  · show (digitsFixed 4 now.year ++ digitsFixed 2 now.month ++
      digitsFixed 2 now.day).length = 8
    simp [digitsFixed_length]
  · show (digitsFixed 4 now.year ++ digitsFixed 2 now.month ++
      digitsFixed 2 now.day).all Char.isDigit = true
    simp [List.all_append, digitsFixed_all]

/-- C8 witness: a concrete construction, with the file sink landing at
`logs/mybot_20261231.log`. -/
theorem C8_witness :
    (getLoggerEntry (RPALogger.init "MyBot" {} [] 0
        ⟨2026, 12, 31, 3, 4, 5⟩).snd "MyBot").handlers.getLast? =
      some ⟨HandlerKind.file
          (pathJoin (resolveLogDir none) (pyLower "MyBot" ++ "_" ++
            fmtYmd ⟨2026, 12, 31, 3, 4, 5⟩ ++ ".log")) 10485760 5,
        resolveLevel none, getFormatter "detailed"⟩ :=
  (C8_log_file_name "MyBot" {} [] 0 ⟨2026, 12, 31, 3, 4, 5⟩ rfl (by decide)).1

/-- C9: two `get_logger` calls with the same name and distinct nonempty
contexts (both keys fresh) build two distinct wrapper objects that wrap the
same underlying named logger — the context never reaches the constructor —
and the second construction replaces the sinks attached by the first: the
shared logger ends up with exactly the second call's sinks. -/
theorem C9_contexts_share_underlying_logger (name c1 c2 : String)
    (o1 o2 : RPAOpts) (now1 now2 : DateTime) (s : FactoryState)
    (hc1 : c1 ≠ "") (hc2 : c2 ≠ "") (hne : c1 ≠ c2)
    (hf1 : s.cache.find? (fun p => p.fst == loggerKey name (some c1)) = none)
    (hf2 : s.cache.find? (fun p => p.fst == loggerKey name (some c2)) = none) :
    (LoggerFactory.get_logger name (some c1) o1 now1 s).fst.id ≠
      (LoggerFactory.get_logger name (some c2) o2 now2
        (LoggerFactory.get_logger name (some c1) o1 now1 s).snd).fst.id ∧
    (LoggerFactory.get_logger name (some c1) o1 now1 s).fst.name = name ∧
    (LoggerFactory.get_logger name (some c2) o2 now2
      (LoggerFactory.get_logger name (some c1) o1 now1 s).snd).fst.name = name ∧
    (getLoggerEntry (LoggerFactory.get_logger name (some c2) o2 now2
        (LoggerFactory.get_logger name (some c1) o1 now1 s).snd).snd.registry
      name).handlers =
      (if o2.enable_console then
        [⟨HandlerKind.console, resolveLevel o2.level, getFormatter o2.format_type⟩]
       else []) ++
      (if o2.enable_file then
        [⟨HandlerKind.file (logFilePath (resolveLogDir o2.log_dir) name now2)
            o2.max_bytes o2.backup_count,
          resolveLevel o2.level, getFormatter o2.format_type⟩]
       else []) := by
  have hkey : loggerKey name (some c1) ≠ loggerKey name (some c2) := by
    simp only [loggerKey, if_neg hc1, if_neg hc2]
    intro h
    apply hne
    have hdata : (name ++ "_" ++ c1).data = (name ++ "_" ++ c2).data := by rw [h]
    simp only [String.data_append] at hdata
    have := List.append_cancel_left hdata
    exact String.ext this
  have e1 : LoggerFactory.get_logger name (some c1) o1 now1 s =
      ⟨(RPALogger.init name o1 s.registry s.nextId now1).fst,
        { cache := (loggerKey name (some c1),
            (RPALogger.init name o1 s.registry s.nextId now1).fst) :: s.cache,
          registry := (RPALogger.init name o1 s.registry s.nextId now1).snd,
          nextId := s.nextId + 1 }⟩ := by
    unfold LoggerFactory.get_logger
    simp only [hf1]
  rw [e1]
  have hf2' : ((loggerKey name (some c1),
      (RPALogger.init name o1 s.registry s.nextId now1).fst) ::
        s.cache).find? (fun p => p.fst == loggerKey name (some c2)) = none := by
    rw [List.find?_cons_of_neg _ (by simpa using hkey), hf2]
  unfold LoggerFactory.get_logger
  simp only [hf2']
  refine ⟨?_, rfl, rfl, ?_⟩
  · simp only [init_id]
    omega
  · exact init_handlers name o2 _ _ now2

/-- C9 witness: name `"Bot"`, contexts `"a"` and `"b"`, fresh state. -/
theorem C9_witness :
    (LoggerFactory.get_logger "Bot" (some "a") {} ⟨2026, 1, 2, 3, 4, 5⟩
      ⟨[], [], 0⟩).fst.id ≠
      (LoggerFactory.get_logger "Bot" (some "b") {} ⟨2026, 1, 2, 3, 4, 6⟩
        (LoggerFactory.get_logger "Bot" (some "a") {} ⟨2026, 1, 2, 3, 4, 5⟩
          ⟨[], [], 0⟩).snd).fst.id :=
  (C9_contexts_share_underlying_logger "Bot" "a" "b" {} {}
    ⟨2026, 1, 2, 3, 4, 5⟩ ⟨2026, 1, 2, 3, 4, 6⟩ ⟨[], [], 0⟩
    (by decide) (by decide) (by decide) rfl rfl).1

/-! ## Claims C3, C10 — the browser driver lifecycle -/

/-- C3: the driver handle is created lazily (the constructor holds none —
and, the field being an `Option`, the manager holds at most one handle);
and a second `get_driver` without an intervening `close_driver` returns the
very handle of the first call, touching neither the manager nor the outside
world (no second process is spawned). -/
theorem C3_get_driver_idempotent :
    (∀ (headless : Bool) (window_size : Option (Nat × Nat))
        (additional_args : Option (List String)) (wait_time : Nat)
        (user_agent : Option String),
      (BrowserManager.init headless window_size additional_args wait_time
        user_agent).driver = none) ∧
    (∀ (m : BrowserManager) (w : BrowserWorld) (f1 f2 : Bool)
        (d : Nat) (m1 : BrowserManager) (w1 : BrowserWorld),
      BrowserManager.get_driver m w f1 = Except.ok (d, m1, w1) →
      BrowserManager.get_driver m1 w1 f2 = Except.ok (d, m1, w1)) := by
  refine ⟨fun _ _ _ _ _ => rfl, ?_⟩
  intro m w f1 f2 d m1 w1 h
  cases hd : m.driver with
  | some d0 =>
    unfold BrowserManager.get_driver at h
    rw [hd] at h
    cases h
    unfold BrowserManager.get_driver
    rw [hd]
  | none =>
    unfold BrowserManager.get_driver at h
    rw [hd] at h
    cases f1 with
    | true => simp at h
    | false =>
      simp only [Bool.false_eq_true, if_false] at h
      cases h
      unfold BrowserManager.get_driver
      rfl

/-- C3 witness: a concrete fresh manager; the first successful launch hands
out handle `0`, and the second call returns the same triple. -/
theorem C3_witness :
    BrowserManager.get_driver
        { BrowserManager.init true none none 10 none with
            driver := some 0, wait := some (0, 10) }
        { spawnCount := 1 } false =
      Except.ok (0,
        { BrowserManager.init true none none 10 none with
            driver := some 0, wait := some (0, 10) },
        { spawnCount := 1 }) :=
  C3_get_driver_idempotent.2 (BrowserManager.init true none none 10 none)
    { spawnCount := 0 } false false 0 _ _ rfl

/-- C10: `close_driver` is total (any `quit()` exception is swallowed); when
`quit()` raises, the handle is **not** cleared and a later `get_driver`
still returns the old handle without spawning; only a successful `quit()`
resets `driver` and `wait` to `None`; without a driver the call is a
no-op. -/
theorem C10_close_driver_error_keeps_handle :
    (∀ (m : BrowserManager) (b : Bool), m.driver = none →
      BrowserManager.close_driver m b = m) ∧
    (∀ (m : BrowserManager) (d : Nat), m.driver = some d →
      BrowserManager.close_driver m true = m) ∧
    (∀ (m : BrowserManager) (d : Nat) (w : BrowserWorld) (f : Bool),
      m.driver = some d →
      BrowserManager.get_driver (BrowserManager.close_driver m true) w f =
        Except.ok (d, BrowserManager.close_driver m true, w)) ∧
    (∀ (m : BrowserManager) (d : Nat), m.driver = some d →
      (BrowserManager.close_driver m false).driver = none ∧
      (BrowserManager.close_driver m false).wait = none) := by
  have hquit : ∀ (m : BrowserManager) (d : Nat), m.driver = some d →
      BrowserManager.close_driver m true = m := by
    intro m d hd
    unfold BrowserManager.close_driver
    rw [hd]
    simp
  refine ⟨?_, hquit, ?_, ?_⟩
  · intro m b hd
    unfold BrowserManager.close_driver
    rw [hd]
  · intro m d w f hd
    rw [hquit m d hd]
    unfold BrowserManager.get_driver
    rw [hd]
  · intro m d hd
    unfold BrowserManager.close_driver
    rw [hd]
    simp

/-- C10 witness: a manager holding handle `7` whose `quit()` raises — the
state is unchanged and `get_driver` afterwards still returns `7`. -/
theorem C10_witness :
    BrowserManager.get_driver
        (BrowserManager.close_driver
          { BrowserManager.init true none none 10 none with
              driver := some 7, wait := some (7, 10) } true)
        { spawnCount := 3 } false =
      Except.ok (7,
        BrowserManager.close_driver
          { BrowserManager.init true none none 10 none with
              driver := some 7, wait := some (7, 10) } true,
        { spawnCount := 3 }) :=
  C10_close_driver_error_keeps_handle.2.2.1
    { BrowserManager.init true none none 10 none with
        driver := some 7, wait := some (7, 10) } 7 { spawnCount := 3 } false rfl

/-! ## Claim C2 — `convert_dtype` failure isolation -/

theorem applyCast_name (astype : String → List String → Option (List String))
    (col : Column) (dtype : String) :
    (applyCast astype col dtype).name = col.name := by
  unfold applyCast
  cases astype dtype col.values <;> rfl

/-- Looking up the targeted column after one cast step applies the cast to
exactly that column. -/
theorem getCol_castStep_self (astype : String → List String → Option (List String))
    (df : DataFrame) (c dt : String) :
    getCol (castStep astype df c dt) c =
      (getCol df c).map (fun col => applyCast astype col dt) := by
  unfold castStep
  by_cases hany : df.any (fun col => col.name == c) = true
  · rw [if_pos hany]
    clear hany
    induction df with
    | nil => rfl
    | cons a t ih =>
      by_cases ha : (a.name == c) = true
      · simp only [getCol, List.map_cons]
        rw [if_pos ha]
        simp only [List.find?_cons, applyCast_name, ha]
        rfl
      · have ha' : (a.name == c) = false := by simpa using ha
        simp only [getCol, List.map_cons]
        rw [if_neg ha]
        simp only [List.find?_cons, ha']
        simp only [getCol] at ih
        exact ih
  · rw [if_neg hany]
    have hnone : getCol df c = none := by
      unfold getCol
      rw [List.find?_eq_none]
      intro a ha hpa
      exact hany (List.any_eq_true.mpr ⟨a, ha, hpa⟩)
    rw [hnone]
    rfl

/-- A cast step for a different column does not touch column `c`. -/
theorem getCol_castStep_other (astype : String → List String → Option (List String))
    (df : DataFrame) (c' dt c : String) (hne : c' ≠ c) :
    getCol (castStep astype df c' dt) c = getCol df c := by
  unfold castStep
  by_cases hany : df.any (fun col => col.name == c') = true
  · rw [if_pos hany]
    clear hany
    induction df with
    | nil => rfl
    | cons a t ih =>
      by_cases ha : (a.name == c') = true
      · have haname : a.name = c' := by simpa using ha
        have hac : (a.name == c) = false := by simp [haname, hne]
        simp only [getCol, List.map_cons]
        rw [if_pos ha]
        simp only [List.find?_cons, applyCast_name, hac]
        simp only [getCol] at ih
        exact ih
      · simp only [getCol, List.map_cons]
        rw [if_neg ha]
        simp only [List.find?_cons]
        cases hac : (a.name == c) with
        | true => rfl
        | false =>
          simp only [getCol] at ih
          exact ih
  · rw [if_neg hany]

/-- A mapping that never mentions `c` leaves column `c` unchanged. -/
theorem getCol_convert_not_mem (astype : String → List String → Option (List String))
    (mapping : List (String × String)) (df : DataFrame) (c : String)
    (hc : c ∉ mapping.map Prod.fst) :
    getCol (convert_dtype astype df mapping) c = getCol df c := by
  induction mapping generalizing df with
  | nil => rfl
  | cons p rest ih =>
    simp only [List.map_cons, List.mem_cons, not_or] at hc
    show getCol (convert_dtype astype (castStep astype df p.fst p.snd) rest) c =
      getCol df c
    rw [ih _ hc.2, getCol_castStep_other _ _ _ _ _ (fun h => hc.1 h.symm)]

/-- C2: `convert_dtype` (a total function — every per-column `astype`
failure is caught inside the loop) processes each mapped column
independently: whatever other entries of the dtype mapping do, a column
whose cast raises is returned unchanged, and a column whose cast succeeds
comes back with the requested dtype and the cast values.  In particular a
mapping with one failing and one succeeding column converts the good one,
keeps the bad one intact, and raises nothing. -/
theorem C2_convert_dtype_isolates_failures
    (astype : String → List String → Option (List String))
    (df : DataFrame) (mapping : List (String × String)) (c dt : String)
    (col : Column) (hnodup : (mapping.map Prod.fst).Nodup)
    (hmem : (c, dt) ∈ mapping) (hcol : getCol df c = some col) :
    (astype dt col.values = none →
      getCol (convert_dtype astype df mapping) c = some col) ∧
    (∀ vs, astype dt col.values = some vs →
      getCol (convert_dtype astype df mapping) c =
        some { name := col.name, dtype := dt, values := vs }) := by
  induction mapping generalizing df col with
  | nil => cases hmem
  | cons p rest ih =>
    simp only [List.map_cons, List.nodup_cons] at hnodup
    by_cases hpc : p.fst = c
    · have hdt : p = (c, dt) := by
        cases hmem with
        | head => rfl
        | tail _ hmem' =>
          exact absurd (List.mem_map.mpr ⟨(c, dt), hmem', rfl⟩)
            (hpc ▸ hnodup.1)
      have hrest : c ∉ rest.map Prod.fst := by
        rw [← hpc]; exact hnodup.1
      show (astype dt col.values = none →
          getCol (convert_dtype astype (castStep astype df p.fst p.snd) rest) c =
            some col) ∧ _
      rw [hdt]
      constructor
      · intro hfail
        show getCol (convert_dtype astype (castStep astype df c dt) rest) c = some col
        rw [getCol_convert_not_mem _ _ _ _ hrest, getCol_castStep_self, hcol]
        simp [applyCast, hfail]
      · intro vs hok
        show getCol (convert_dtype astype (castStep astype df c dt) rest) c =
          some { name := col.name, dtype := dt, values := vs }
        rw [getCol_convert_not_mem _ _ _ _ hrest, getCol_castStep_self, hcol]
        simp [applyCast, hok]
    · have hmem' : (c, dt) ∈ rest := by
        cases hmem with
        | head => exact absurd rfl hpc
        | tail _ h => exact h
      have hcol' : getCol (castStep astype df p.fst p.snd) c = some col := by
        rw [getCol_castStep_other _ _ _ _ _ hpc, hcol]
      exact ih _ _ hnodup.2 hmem' hcol'

/-- A toy `astype` for the witness: casting to `int` succeeds only when
every value is a digit string. -/
def astypeToy (dt : String) (vs : List String) : Option (List String) :=
  if dt == "int" then
    (if vs.all (fun s => !s.data.isEmpty && s.data.all Char.isDigit) then some vs
     else none)
  else some vs

/-- C2 witness: a frame with a non-numeric column `a` and a numeric column
`b`, both mapped to `int`: `a` comes back untouched, `b` converted, and the
whole call returns a frame. -/
theorem C2_witness :
    getCol (convert_dtype astypeToy
        [⟨"a", "object", ["x"]⟩, ⟨"b", "object", ["1"]⟩]
        [("a", "int"), ("b", "int")]) "a" = some ⟨"a", "object", ["x"]⟩ ∧
    getCol (convert_dtype astypeToy
        [⟨"a", "object", ["x"]⟩, ⟨"b", "object", ["1"]⟩]
        [("a", "int"), ("b", "int")]) "b" = some ⟨"b", "int", ["1"]⟩ :=
  ⟨(C2_convert_dtype_isolates_failures astypeToy
      [⟨"a", "object", ["x"]⟩, ⟨"b", "object", ["1"]⟩]
      [("a", "int"), ("b", "int")] "a" "int" ⟨"a", "object", ["x"]⟩
      (by decide) (by decide) (by decide)).1 (by decide),
   (C2_convert_dtype_isolates_failures astypeToy
      [⟨"a", "object", ["x"]⟩, ⟨"b", "object", ["1"]⟩]
      [("a", "int"), ("b", "int")] "b" "int" ⟨"b", "object", ["1"]⟩
      (by decide) (by decide) (by decide)).2 ["1"] (by decide)⟩

/-! ## Claim C5 — save paths, extensions, and directory creation -/

/-- C5 counterexample to the claim as stated: a `save_csv` call against a
file system in which the configured output directory does not exist creates
no directory — the write itself never calls `mkdir` (only the constructor
does, `data.py` line 33). -/
theorem C5_write_does_not_create_dir_counterexample :
    "out" ∉ (DataHandler.save_csv ⟨"out", "utf-8"⟩ ⟨[], []⟩ [] "a").snd.dirs := by
  decide

/-- C5 (amended): every save returns the output directory joined with the
filename, where the canonical extension is appended exactly when the
filename does not already end with it (so the result always ends with the
extension); the destination directory is created by the handler's
constructor, not by the write. -/
theorem C5_save_path_extension_and_dir :
    (∀ fn ext : String, pyEndsWith fn ("." ++ ext) = true →
      _add_extension fn ext = fn) ∧
    (∀ fn ext : String, pyEndsWith fn ("." ++ ext) = false →
      _add_extension fn ext = fn ++ "." ++ ext) ∧
    (∀ fn ext : String, pyEndsWith (_add_extension fn ext) ("." ++ ext) = true) ∧
    (∀ (h : DataHandler) (fs : FileSystem) (df : DataFrame) (fn : String),
      (DataHandler.save_csv h fs df fn).fst =
        pathJoin h.output_dir (_add_extension fn "csv")) ∧
    (∀ (od enc : Option String) (fs : FileSystem),
      (DataHandler.init od enc fs).fst.output_dir ∈
        (DataHandler.init od enc fs).snd.dirs) := by
  have hkeep : ∀ fn ext : String, pyEndsWith fn ("." ++ ext) = true →
      _add_extension fn ext = fn := by
    intro fn ext hend
    unfold _add_extension
    rw [hend]
    rfl
  have happend : ∀ fn ext : String, pyEndsWith fn ("." ++ ext) = false →
      _add_extension fn ext = fn ++ "." ++ ext := by
    intro fn ext hend
    unfold _add_extension
    rw [hend]
    rfl
  refine ⟨hkeep, happend, ?_, fun h fs df fn => rfl, ?_⟩
  · intro fn ext
    cases hend : pyEndsWith fn ("." ++ ext) with
    | true => rw [hkeep fn ext hend]; exact hend
    | false =>
      rw [happend fn ext hend]
      unfold pyEndsWith
      have hdata : (fn ++ "." ++ ext).data = fn.data ++ ("." ++ ext).data := by
        simp [String.data_append, String.append_assoc]
      rw [hdata]
      have hlen : ("." ++ ext).data.length ≤
          (fn.data ++ ("." ++ ext).data).length := by
        simp
      rw [if_pos hlen]
      have hsub : fn.data.length + ("." ++ ext).data.length -
          ("." ++ ext).data.length = fn.data.length := by omega
      simp only [List.length_append, hsub, List.drop_left]
      exact beq_self_eq_true _
  · intro od enc fs
    show (DataHandler.init od enc fs).fst.output_dir ∈
      (fs.mkdirp (DataHandler.init od enc fs).fst.output_dir).dirs
    unfold FileSystem.mkdirp
    by_cases hmem : fs.dirs.contains (DataHandler.init od enc fs).fst.output_dir
    · rw [if_pos hmem]
      exact List.mem_of_elem_eq_true hmem
    · rw [if_neg hmem]
      exact List.mem_cons_self _ _

/-- C5 witness: a filename already carrying `.csv` is kept, one without
gets it appended, and a concrete constructor registers `"out"` among the
directories. -/
theorem C5_witness :
    _add_extension "x.csv" "csv" = "x.csv" ∧
    _add_extension "x" "csv" = "x" ++ "." ++ "csv" ∧
    (DataHandler.init (some "out") none ⟨[], []⟩).fst.output_dir ∈
      (DataHandler.init (some "out") none ⟨[], []⟩).snd.dirs :=
  ⟨C5_save_path_extension_and_dir.1 "x.csv" "csv" (by decide),
   C5_save_path_extension_and_dir.2.1 "x" "csv" (by decide),
   C5_save_path_extension_and_dir.2.2.2.2 (some "out") none ⟨[], []⟩⟩

/-! ## Claim C6 — timestamped file names -/

/-- Decidable check for the regular expression `<base>_\d\x7b8\x7d_\d\x7b6\x7d\.csv`
as a whole-string match. -/
def matchesTsPattern (base s : String) : Bool :=
  let b := base.data ++ ['_']
  let r := s.data
  (r.take b.length == b) &&
  (let r1 := r.drop b.length
   (r1.length == 19) && (r1.take 8).all Char.isDigit &&
     (r1.drop 8).take 1 == ['_'] && ((r1.drop 9).take 6).all Char.isDigit &&
     (r1.drop 15) == ['.', 'c', 's', 'v'])

theorem digitsFixed_two (n : Nat) :
    digitsFixed 2 n = [Nat.digitChar (n / 10 % 10), Nat.digitChar (n % 10)] := by
  simp [digitsFixed, List.range_succ]

theorem digitsFixed_four (n : Nat) :
    digitsFixed 4 n = [Nat.digitChar (n / 1000 % 10), Nat.digitChar (n / 100 % 10),
      Nat.digitChar (n / 10 % 10), Nat.digitChar (n % 10)] := by
  norm_num [digitsFixed, List.range_succ]

/-- The fifteen characters of a `%Y%m%d_%H%M%S` timestamp. -/
theorem fmtYmdHMS_data (t : DateTime) :
    (fmtYmdHMS t).data =
      [Nat.digitChar (t.year / 1000 % 10), Nat.digitChar (t.year / 100 % 10),
       Nat.digitChar (t.year / 10 % 10), Nat.digitChar (t.year % 10),
       Nat.digitChar (t.month / 10 % 10), Nat.digitChar (t.month % 10),
       Nat.digitChar (t.day / 10 % 10), Nat.digitChar (t.day % 10), '_',
       Nat.digitChar (t.hour / 10 % 10), Nat.digitChar (t.hour % 10),
       Nat.digitChar (t.minute / 10 % 10), Nat.digitChar (t.minute % 10),
       Nat.digitChar (t.second / 10 % 10), Nat.digitChar (t.second % 10)] := by
  show digitsFixed 4 t.year ++ digitsFixed 2 t.month ++ digitsFixed 2 t.day ++
    '_' :: (digitsFixed 2 t.hour ++ digitsFixed 2 t.minute ++
      digitsFixed 2 t.second) = _
  rw [digitsFixed_four, digitsFixed_two, digitsFixed_two, digitsFixed_two,
    digitsFixed_two, digitsFixed_two]
  rfl

theorem digitChar_mod_ne (n : Nat) (c : Char) (hc : c.isDigit = false) :
    (Nat.digitChar (n % 10) == c) = false := by
  have h10 : n % 10 < 10 := Nat.mod_lt _ (by norm_num)
  cases hbe : (Nat.digitChar (n % 10) == c) with
  | false => rfl
  | true =>
    have heq : Nat.digitChar (n % 10) = c := by simpa using hbe
    rw [← heq, digitChar_isDigit _ h10] at hc
    cases hc

/-- A name ending in a `%Y%m%d_%H%M%S` timestamp never ends in `.csv`. -/
theorem pyEndsWith_ts_csv (base : String) (now : DateTime) :
    pyEndsWith (base ++ "_" ++ fmtYmdHMS now) ("." ++ "csv") = false := by
  unfold pyEndsWith
  have hdata : (base ++ "_" ++ fmtYmdHMS now).data =
      (base.data ++ ['_']) ++ (fmtYmdHMS now).data := by
    simp [String.data_append]
  have hfmtlen : (fmtYmdHMS now).data.length = 15 := by
    rw [fmtYmdHMS_data]; rfl
  have hsuf : ("." ++ "csv" : String).data = ['.', 'c', 's', 'v'] := rfl
  rw [hdata, hsuf]
  have hlen : ([(' ' : Char)].length + 3) ≤
      ((base.data ++ ['_']) ++ (fmtYmdHMS now).data).length := by
    simp [hfmtlen]
  rw [if_pos (by simpa using hlen)]
  have harith : ((base.data ++ ['_']) ++ (fmtYmdHMS now).data).length -
      ([('.' : Char), 'c', 's', 'v'].length) =
      (base.data ++ ['_']).length + 11 := by
    simp only [List.length_append, List.length_cons, List.length_nil, hfmtlen]
    omega
  rw [harith, List.drop_append]
  rw [fmtYmdHMS_data]
  show ([Nat.digitChar (now.minute / 10 % 10), Nat.digitChar (now.minute % 10),
    Nat.digitChar (now.second / 10 % 10), Nat.digitChar (now.second % 10)] ==
      ['.', 'c', 's', 'v']) = false
  have hne : (Nat.digitChar (now.minute / 10 % 10) == '.') = false :=
    digitChar_mod_ne _ _ (by decide)
  simp [List.instBEq, List.beq, hne]

/-- C6: `save_with_timestamp` appends `_YYYYMMDD_HHMMSS` to the base name
before dispatching to the matching writer (shown for the `csv` dispatch
target); for base name `"x"` and format `"csv"` the produced file name
(under the output directory) matches `x_\d\x7b8\x7d_\d\x7b6\x7d\.csv`. -/
theorem C6_save_with_timestamp_pattern (h : DataHandler) (r : Renderers)
    (fs : FileSystem) (df : DataFrame) (filename : String) (now : DateTime)
    (hv : now.Valid) :
    DataHandler.save_with_timestamp h r fs df filename "csv" now =
      some (DataHandler.save_csv h fs df (filename ++ "_" ++ fmtYmdHMS now)) ∧
    DataHandler.save_with_timestamp h r fs df "x" "csv" now =
      some (pathJoin h.output_dir ("x" ++ "_" ++ fmtYmdHMS now ++ "." ++ "csv"),
        fs.write (pathJoin h.output_dir ("x" ++ "_" ++ fmtYmdHMS now ++ "." ++ "csv"))
          (to_csv df)) ∧
    matchesTsPattern "x" ("x" ++ "_" ++ fmtYmdHMS now ++ "." ++ "csv") = true := by
  have hext : ∀ base : String,
      _add_extension (base ++ "_" ++ fmtYmdHMS now) "csv" =
        base ++ "_" ++ fmtYmdHMS now ++ "." ++ "csv" := by
    intro base
    unfold _add_extension
    rw [pyEndsWith_ts_csv]
    rfl
  refine ⟨rfl, ?_, ?_⟩
  · show some (DataHandler.save_csv h fs df ("x" ++ "_" ++ fmtYmdHMS now)) = _
    unfold DataHandler.save_csv
    rw [hext "x"]
  · have hdata : ("x" ++ "_" ++ fmtYmdHMS now ++ "." ++ "csv").data =
        'x' :: '_' :: ((fmtYmdHMS now).data ++ ['.', 'c', 's', 'v']) := by
      simp [String.data_append]
    have hdig : ∀ m : Nat, (Nat.digitChar (m % 10)).isDigit = true :=
      fun m => digitChar_isDigit _ (Nat.mod_lt _ (by norm_num))
    unfold matchesTsPattern
    simp [hdata, fmtYmdHMS_data, hdig]

/-- C6 witness: a concrete run at `2026-01-28 14:30:25` from base `"x"`. -/
theorem C6_witness :
    matchesTsPattern "x"
      ("x" ++ "_" ++ fmtYmdHMS ⟨2026, 1, 28, 14, 30, 25⟩ ++ "." ++ "csv") = true :=
  (C6_save_with_timestamp_pattern ⟨"out", "utf-8"⟩
    ⟨fun _ => "", fun _ => "", fun _ => "", fun _ => ""⟩ ⟨[], []⟩ [] "x"
    ⟨2026, 1, 28, 14, 30, 25⟩ (by decide)).2.2

/-! ## Claim C4 — CSV write/read round trip

The codec model is exact for cells needing no quoting; `csvSafe` delimits
that domain (nonempty, and free of separator, line-terminator, carriage
return and quote characters). -/

/-- A string the CSV codec passes through verbatim. -/
def csvSafeList (l : List Char) : Prop :=
  l ≠ [] ∧ (',' : Char) ∉ l ∧ ('\n' : Char) ∉ l ∧ ('\r' : Char) ∉ l ∧
    Char.ofNat 34 ∉ l

instance (l : List Char) : Decidable (csvSafeList l) := by
  unfold csvSafeList; infer_instance

/-- `csvSafeList` on a string's characters. -/
def csvSafe (s : String) : Prop := csvSafeList s.data

instance (s : String) : Decidable (csvSafe s) := by
  unfold csvSafe; infer_instance

theorem splitOnChar_ne_nil (sep : Char) (l : List Char) :
    splitOnChar sep l ≠ [] := by
  induction l with
  | nil => simp [splitOnChar]
  | cons c cs ih =>
    unfold splitOnChar
    by_cases hc : c = sep
    · simp [hc]
    · rw [if_neg hc]
      cases h : splitOnChar sep cs with
      | nil => simp
      | cons x t => simp

theorem splitOnChar_of_not_mem (sep : Char) (l : List Char) (h : sep ∉ l) :
    splitOnChar sep l = [l] := by
  induction l with
  | nil => rfl
  | cons c cs ih =>
    simp only [List.mem_cons, not_or] at h
    unfold splitOnChar
    rw [if_neg (fun he => h.1 he.symm), ih h.2]

theorem splitOnChar_append_sep (sep : Char) (l r : List Char) (h : sep ∉ l) :
    splitOnChar sep (l ++ sep :: r) = l :: splitOnChar sep r := by
  induction l with
  | nil => simp [splitOnChar]
  | cons c cs ih =>
    simp only [List.mem_cons, not_or] at h
    simp only [List.cons_append]
    conv_lhs => rw [splitOnChar]
    rw [if_neg (fun he => h.1 he.symm), ih h.2]

theorem splitOnChar_terminateLines (lines : List (List Char))
    (h : ∀ l ∈ lines, ('\n' : Char) ∉ l) :
    splitOnChar '\n' (terminateLines lines) = lines ++ [[]] := by
  induction lines with
  | nil => rfl
  | cons l ls ih =>
    show splitOnChar '\n' (l ++ '\n' :: terminateLines ls) = _
    rw [splitOnChar_append_sep _ _ _ (h l (List.mem_cons_self _ _)),
      ih (fun x hx => h x (List.mem_cons_of_mem _ hx))]
    rfl

theorem splitOnChar_joinSep (sep : Char) (cells : List (List Char))
    (hne : cells ≠ []) (h : ∀ c ∈ cells, sep ∉ c) :
    splitOnChar sep (joinSep sep cells) = cells := by
  induction cells with
  | nil => cases hne rfl
  | cons x xs ih =>
    cases xs with
    | nil =>
      show splitOnChar sep x = [x]
      exact splitOnChar_of_not_mem _ _ (h x (List.mem_cons_self _ _))
    | cons y ys =>
      show splitOnChar sep (x ++ sep :: joinSep sep (y :: ys)) = x :: y :: ys
      rw [splitOnChar_append_sep _ _ _ (h x (List.mem_cons_self _ _)),
        ih (by simp) (fun c hc => h c (List.mem_cons_of_mem _ hc))]

theorem mem_joinSep (sep : Char) (cells : List (List Char)) (c : Char)
    (hc : c ∈ joinSep sep cells) : c = sep ∨ ∃ l ∈ cells, c ∈ l := by
  induction cells with
  | nil => cases hc
  | cons x xs ih =>
    cases xs with
    | nil => exact Or.inr ⟨x, List.mem_cons_self _ _, hc⟩
    | cons y ys =>
      have hc' : c ∈ x ++ sep :: joinSep sep (y :: ys) := hc
      rcases List.mem_append.mp hc' with h1 | h2
      · exact Or.inr ⟨x, List.mem_cons_self _ _, h1⟩
      · rcases List.mem_cons.mp h2 with h3 | h4
        · exact Or.inl h3
        · rcases ih h4 with h5 | ⟨l, hl, hcl⟩
          · exact Or.inl h5
          · exact Or.inr ⟨l, List.mem_cons_of_mem _ hl, hcl⟩

theorem joinSep_ne_nil (sep : Char) (cells : List (List Char)) (hne : cells ≠ [])
    (h : ∀ c ∈ cells, c ≠ []) : joinSep sep cells ≠ [] := by
  cases cells with
  | nil => cases hne rfl
  | cons x xs =>
    cases xs with
    | nil => exact h x (List.mem_cons_self _ _)
    | cons y ys =>
      show x ++ sep :: joinSep sep (y :: ys) ≠ []
      simp

theorem filter_not_empty (lines : List (List Char)) (h : ∀ l ∈ lines, l ≠ []) :
    (lines ++ [([] : List Char)]).filter (fun l => !l.isEmpty) = lines := by
  rw [List.filter_append]
  have h2 : ([([] : List Char)].filter (fun l => !l.isEmpty)) = [] := rfl
  rw [h2, List.append_nil]
  apply List.filter_eq_self.mpr
  intro a ha
  simp [List.isEmpty_iff, h a ha]

theorem buildCols_map_name (rows : List (List (List Char))) (i : Nat)
    (ns : List (List Char)) :
    (buildCols rows i ns).map Column.name = ns.map String.mk := by
  induction ns generalizing i with
  | nil => rfl
  | cons n ns ih => simp [buildCols, ih]

theorem nrows_buildCols (rows : List (List (List Char))) (i : Nat)
    (n : List Char) (ns : List (List Char)) :
    nrows (buildCols rows i (n :: ns)) = rows.length := by
  simp [buildCols, nrows]

theorem readFile_write (fs : FileSystem) (p content : String) :
    FileSystem.readFile (fs.write p content) p = some content := by
  unfold FileSystem.readFile FileSystem.write
  simp [List.find?_cons]

/-- Every cell of every materialised row is one of the frame's values,
hence safe. -/
theorem dfRows_cells_safe (df : DataFrame)
    (hlens : ∀ col ∈ df, col.values.length = nrows df)
    (hcells : ∀ col ∈ df, ∀ v ∈ col.values, csvSafe v) :
    ∀ r ∈ dfRows df, ∀ v ∈ r, csvSafe v := by
  intro r hr v hv
  simp only [dfRows, List.mem_map, List.mem_range] at hr
  obtain ⟨i, hi, rfl⟩ := hr
  simp only [rowCells, List.mem_map] at hv
  obtain ⟨col, hcol, rfl⟩ := hv
  have hlen : i < col.values.length := by rw [hlens col hcol]; exact hi
  have hmem : col.values.getD i "" ∈ col.values := by
    rw [List.getD_eq_getElem?_getD, List.getElem?_eq_getElem hlen]
    exact List.getElem_mem hlen
  exact hcells col hcol _ hmem

theorem csvLine_no_char (cells : List (List Char)) (c : Char) (hc : c ≠ ',')
    (h : ∀ x ∈ cells, c ∉ x) : c ∉ csvLine cells := by
  intro hmem
  rcases mem_joinSep ',' cells c hmem with heq | ⟨l, hl, hcl⟩
  · exact hc heq
  · exact h l hl hcl

/-- C4 counterexample to the claim as stated: the format `"sql"` is listed
in `SUPPORTED_FORMATS`, but the class defines neither a `save_sql` nor a
`read_sql` method, so "writing the dataset with that format's save
operation" is impossible — the dynamic dispatch raises `AttributeError`. -/
theorem C4_sql_has_no_save_counterexample :
    "sql" ∈ SUPPORTED_FORMATS ∧ "sql" ∉ SAVE_METHOD_FORMATS ∧
    "sql" ∉ READ_METHOD_FORMATS ∧
    saveDispatch ⟨"out", "utf-8"⟩ ⟨fun _ => "", fun _ => "", fun _ => "", fun _ => ""⟩
      ⟨[], []⟩ [] "a" "sql" = none :=
  ⟨by decide, by decide, by decide, rfl⟩

/-- C4 (amended, proved for the `csv` codec): for every dataset with at
least one column, equal column lengths, and CSV-safe nonempty names and
cells, `save_csv` followed by `read_csv` of the returned path yields a
dataset with exactly the original column names and row count. -/
theorem C4_csv_round_trip (h : DataHandler) (fs : FileSystem) (df : DataFrame)
    (filename : String) (hne : df ≠ [])
    (hnames : ∀ col ∈ df, csvSafe col.name)
    (hlens : ∀ col ∈ df, col.values.length = nrows df)
    (hcells : ∀ col ∈ df, ∀ v ∈ col.values, csvSafe v) :
    ∃ df2 : DataFrame,
      DataHandler.read_csv h (DataHandler.save_csv h fs df filename).snd
        (DataHandler.save_csv h fs df filename).fst = some df2 ∧
      df2.map Column.name = df.map Column.name ∧
      nrows df2 = nrows df := by
  have hread : DataHandler.read_csv h (DataHandler.save_csv h fs df filename).snd
      (DataHandler.save_csv h fs df filename).fst = parseCsvDf (to_csv df) := by
    show ((fs.write (pathJoin h.output_dir (_add_extension filename "csv"))
        (to_csv df)).readFile
        (pathJoin h.output_dir (_add_extension filename "csv"))).bind parseCsvDf = _
    rw [readFile_write]
    rfl
  have hnamesne : df.map (fun c => c.name.data) ≠ [] := by
    cases df with
    | nil => cases hne rfl
    | cons c0 rest => simp
  have hnames_safe : ∀ x ∈ df.map (fun c => c.name.data), csvSafeList x := by
    intro x hx
    obtain ⟨col, hcol, rfl⟩ := List.mem_map.mp hx
    exact hnames col hcol
  have hheader_nl : ('\n' : Char) ∉ csvLine (df.map fun c => c.name.data) :=
    csvLine_no_char _ _ (by decide) (fun x hx => (hnames_safe x hx).2.2.1)
  have hheader_ne : csvLine (df.map fun c => c.name.data) ≠ [] :=
    joinSep_ne_nil _ _ hnamesne (fun x hx => (hnames_safe x hx).1)
  have hcellsafe := dfRows_cells_safe df hlens hcells
  have hrows_nl : ∀ rl ∈ (dfRows df).map (fun r => csvLine (r.map String.data)),
      ('\n' : Char) ∉ rl := by
    intro rl hrl
    obtain ⟨r, hr, rfl⟩ := List.mem_map.mp hrl
    apply csvLine_no_char _ _ (by decide)
    intro x hx
    obtain ⟨v, hv, rfl⟩ := List.mem_map.mp hx
    exact (hcellsafe r hr v hv).2.2.1
  have hrows_ne : ∀ rl ∈ (dfRows df).map (fun r => csvLine (r.map String.data)),
      rl ≠ [] := by
    intro rl hrl
    obtain ⟨r, hr, rfl⟩ := List.mem_map.mp hrl
    have hrne : r.map String.data ≠ [] := by
      have hr0 : r ≠ [] := by
        simp only [dfRows, List.mem_map, List.mem_range] at hr
        obtain ⟨i, hi, rfl⟩ := hr
        cases df with
        | nil => cases hne rfl
        | cons c0 rest => simp [rowCells]
      simpa using hr0
    apply joinSep_ne_nil _ _ hrne
    intro x hx
    obtain ⟨v, hv, rfl⟩ := List.mem_map.mp hx
    exact (hcellsafe r hr v hv).1
  have hsplit : splitOnChar '\n' (to_csv df).data =
      (csvLine (df.map fun c => c.name.data) ::
        (dfRows df).map (fun r => csvLine (r.map String.data))) ++ [[]] := by
    show splitOnChar '\n' (terminateLines _) = _
    apply splitOnChar_terminateLines
    intro l hl
    rcases List.mem_cons.mp hl with rfl | hl2
    · exact hheader_nl
    · exact hrows_nl l hl2
  have hfilter : (splitOnChar '\n' (to_csv df).data).filter (fun l => !l.isEmpty) =
      csvLine (df.map fun c => c.name.data) ::
        (dfRows df).map (fun r => csvLine (r.map String.data)) := by
    rw [hsplit]
    apply filter_not_empty
    intro l hl
    rcases List.mem_cons.mp hl with rfl | hl2
    · exact hheader_ne
    · exact hrows_ne l hl2
  have hparse : parseCsvDf (to_csv df) =
      some (buildCols
        (((dfRows df).map (fun r => csvLine (r.map String.data))).map
          (splitOnChar ','))
        0 (splitOnChar ',' (csvLine (df.map fun c => c.name.data)))) := by
    unfold parseCsvDf
    rw [hfilter]
  have hnames_split : splitOnChar ',' (csvLine (df.map fun c => c.name.data)) =
      df.map (fun c => c.name.data) :=
    splitOnChar_joinSep _ _ hnamesne (fun x hx => (hnames_safe x hx).2.1)
  refine ⟨_, hread.trans hparse, ?_, ?_⟩
  · rw [buildCols_map_name, hnames_split, List.map_map]
    exact List.map_congr_left (fun a _ => rfl)
  · rw [hnames_split]
    cases hdf : df with
    | nil => cases hne hdf
    | cons c0 rest =>
      simp only [List.map_cons]
      rw [nrows_buildCols]
      simp [dfRows]

/-- C4 witness: a one-column two-row frame round-trips through
`save_csv`/`read_csv` with its column name and row count intact. -/
theorem C4_witness :
    ∃ df2 : DataFrame,
      DataHandler.read_csv ⟨"out", "utf-8"⟩
        (DataHandler.save_csv ⟨"out", "utf-8"⟩ ⟨[], []⟩
          [⟨"a", "int64", ["1", "2"]⟩] "t").snd
        (DataHandler.save_csv ⟨"out", "utf-8"⟩ ⟨[], []⟩
          [⟨"a", "int64", ["1", "2"]⟩] "t").fst = some df2 ∧
      df2.map Column.name = [Column.mk "a" "int64" ["1", "2"]].map Column.name ∧
      nrows df2 = nrows [Column.mk "a" "int64" ["1", "2"]] :=
  C4_csv_round_trip ⟨"out", "utf-8"⟩ ⟨[], []⟩ [⟨"a", "int64", ["1", "2"]⟩] "t"
    (by decide) (by decide) (by decide) (by decide)

end RpaCore
